import Mathlib

/-!
# VoxelOps — verification of the validation / orchestration layer

A shallow embedding of the VoxelOps procedure-orchestration code
(`voxelops/procedures/orchestrator.py`, `voxelops/procedures/result.py`,
`voxelops/validation/base.py`, `voxelops/validation/context.py`,
`voxelops/validation/rules/common.py`, `voxelops/validation/validators/base.py`,
`voxelops/audit/logger.py`, `voxelops/audit/records.py`).

Modelling conventions:
* Python attribute-carrying values are modelled by `PyVal`; an attribute that is
  present but bound to `None` is `some PyVal.vnone`, an absent attribute is `none`.
* `datetime` timestamps are not modelled (no claim is about wall-clock time).
* The filesystem touched by the audit logger is an explicit `FileStore` state
  threaded through `run_procedure`; a log file's contents are its appended
  records, one per line.
* The external runner (`run_heudiconv` etc.) is modelled by its behaviour at the
  one call `run_procedure` makes: `Except String ExecMap` — either it raises an
  exception with message `e` or it returns a result dictionary.
-/

namespace VoxelOps

/-- A Python value as it flows through the validation and orchestration code:
`None`, booleans, numbers, strings (paths are carried as their string form),
lists, and attribute-carrying objects / dicts. -/
inductive PyVal where
  | vnone
  | vbool (b : Bool)
  | vnat (n : Nat)
  | vstr (s : String)
  | vlist (xs : List PyVal)
  | vobj (attrs : List (String × PyVal))

/-- First-match association-list lookup (Python attribute / dict lookup). -/
def alookup {β : Type} (k : String) : List (String × β) → Option β
  | [] => none
  | (a, v) :: rest => if a == k then some v else alookup k rest

/-- `hasattr(v, a)` for the modelled object values. -/
def pyhasattr (v : PyVal) (a : String) : Bool :=
  match v with
  | .vobj attrs => (alookup a attrs).isSome
  | _ => false

/-- `getattr(v, a)`: `none` when the attribute is absent, `some PyVal.vnone`
when it is present but bound to Python `None`. -/
def pygetattr (v : PyVal) (a : String) : Option PyVal :=
  match v with
  | .vobj attrs => alookup a attrs
  | _ => none

/-- `str(path)` for a value used as a path (`Path(value)` in the source
converts to a path; paths are modelled by their string form). -/
def pathOf : PyVal → String
  | .vstr s => s
  | _ => ""

/-- A rough `str()` rendering, used only for the `PROCEDURE_START` audit data
payload, which no claim inspects. -/
def pyStr : PyVal → String
  | .vnone => "None"
  | .vbool true => "True"
  | .vbool false => "False"
  | .vnat n => toString n
  | .vstr s => s
  | .vlist _ => "<list>"
  | .vobj _ => "<object>"

/-- `voxelops/validation/base.py` — `ValidationResult`: the outcome of a single
rule check (the `timestamp` field is not modelled). -/
structure ValidationResult where
  rule_name : String
  rule_description : String
  passed : Bool
  severity : String
  message : String
  details : List (String × PyVal) := []

/-- `ValidationResult.to_dict` (without the timestamp). -/
def ValidationResult.to_dict (r : ValidationResult) : List (String × PyVal) :=
  [("rule_name", .vstr r.rule_name), ("rule_description", .vstr r.rule_description),
   ("passed", .vbool r.passed), ("severity", .vstr r.severity),
   ("message", .vstr r.message), ("details", .vobj r.details)]

/-- `voxelops/validation/base.py` — `ValidationReport`: all results of one
validation phase (the `timestamp` field is not modelled). -/
structure ValidationReport where
  phase : String
  procedure : String
  participant : String
  session : Option String
  results : List ValidationResult := []

/-- `ValidationReport.passed`:
`all(r.passed or r.severity != "error" for r in self.results)`. -/
def ValidationReport.passed (rep : ValidationReport) : Bool :=
  rep.results.all (fun r => r.passed || !(r.severity == "error"))

/-- `ValidationReport.errors`: failed error-severity results. -/
def ValidationReport.errors (rep : ValidationReport) : List ValidationResult :=
  rep.results.filter (fun r => !r.passed && r.severity == "error")

/-- `ValidationReport.warnings`: failed warning-severity results. -/
def ValidationReport.warnings (rep : ValidationReport) : List ValidationResult :=
  rep.results.filter (fun r => !r.passed && r.severity == "warning")

/-- `ValidationReport.passed_checks`. -/
def ValidationReport.passed_checks (rep : ValidationReport) : List ValidationResult :=
  rep.results.filter (fun r => r.passed)

/-- `ValidationReport.to_dict` (without the timestamp). -/
def ValidationReport.to_dict (rep : ValidationReport) : List (String × PyVal) :=
  [("phase", .vstr rep.phase), ("procedure", .vstr rep.procedure),
   ("participant", .vstr rep.participant),
   ("session", match rep.session with | some s => .vstr s | none => .vnone),
   ("passed", .vbool rep.passed),
   ("total_checks", .vnat rep.results.length),
   ("error_count", .vnat rep.errors.length),
   ("warning_count", .vnat rep.warnings.length),
   ("passed_count", .vnat rep.passed_checks.length),
   ("results", .vlist (rep.results.map (fun r => .vobj r.to_dict)))]

/-- `voxelops/procedures/orchestrator.py` — the runner's returned mapping
(a Python dict). -/
abbrev ExecMap := List (String × PyVal)

/-- Python `dict.get(key)`: `None` when the key is absent. -/
def dictGet (m : ExecMap) (k : String) : PyVal :=
  (alookup k m).getD .vnone

/-- `voxelops/validation/context.py` — `ValidationContext`. `inputs`, `config`
and `expected_outputs` are arbitrary Python values (`PyVal.vnone` = `None`). -/
structure ValidationContext where
  procedure_name : String
  participant : String
  session : Option String := none
  inputs : PyVal := .vnone
  config : PyVal := .vnone
  expected_outputs : PyVal := .vnone
  execution_result : Option ExecMap := none

/-- The fixed candidate list probed by `ValidationContext.input_dir`. -/
def inputDirCandidates : List String :=
  ["bids_dir", "dicom_dir", "qsiprep_dir", "qsirecon_dir"]

/-- The `for attr in [...]` loop of `ValidationContext.input_dir`: skip an
absent attribute (`hasattr` false) and a present-but-`None` attribute, return
the first non-`None` value. -/
def firstInputDirAttr (inputs : PyVal) : List String → Option PyVal
  | [] => none
  | a :: rest =>
    match pygetattr inputs a with
    | none => firstInputDirAttr inputs rest
    | some v =>
      match v with
      | .vnone => firstInputDirAttr inputs rest
      | w => some w

/-- `ValidationContext.input_dir`: `None` when `inputs is None`, otherwise the
first candidate attribute that is present and non-`None` (taken as a path). -/
def ValidationContext.input_dir (ctx : ValidationContext) : Option PyVal :=
  match ctx.inputs with
  | .vnone => none
  | inputs => firstInputDirAttr inputs inputDirCandidates

/-- A candidate attribute's contribution, spec-side: its value when present
and non-`None`, otherwise nothing. -/
def presentNonNull (inputs : PyVal) (a : String) : Option PyVal :=
  match pygetattr inputs a with
  | some .vnone => none
  | some v => some v
  | none => none

/-- The filesystem as the validation rules see it: path existence and kind
queries (`Path.exists`, `Path.is_dir`, `Path.is_file`). -/
structure PathFS where
  pexists : String → Bool
  is_dir : String → Bool
  is_file : String → Bool

/-- `ValidationRule._pass`. -/
def rulePass (rule_name rule_description severity message : String)
    (details : List (String × PyVal)) : ValidationResult :=
  { rule_name := rule_name, rule_description := rule_description, passed := true,
    severity := severity, message := message, details := details }

/-- `ValidationRule._fail`. -/
def ruleFail (rule_name rule_description severity message : String)
    (details : List (String × PyVal)) : ValidationResult :=
  { rule_name := rule_name, rule_description := rule_description, passed := false,
    severity := severity, message := message, details := details }

/-- `voxelops/validation/rules/common.py` — `DirectoryExistsRule` parameters. -/
structure DirectoryExistsRule where
  path_attr : String
  dir_type : String := "Input"
  severity : String := "error"

/-- `self.name = f"{path_attr}_exists"`. -/
def DirectoryExistsRule.name (r : DirectoryExistsRule) : String :=
  r.path_attr ++ "_exists"

/-- `self.description = f"Verify {dir_type} directory exists"`. -/
def DirectoryExistsRule.description (r : DirectoryExistsRule) : String :=
  "Verify " ++ r.dir_type ++ " directory exists"

/-- `DirectoryExistsRule.check`: fails when inputs are `None` or the attribute
is missing; passes when the attribute is present but `None` (optional path);
otherwise checks existence and directory-ness of the path. -/
def DirectoryExistsRule.check (rule : DirectoryExistsRule) (pfs : PathFS)
    (context : ValidationContext) : ValidationResult :=
  match context.inputs with
  | .vnone =>
    ruleFail rule.name rule.description rule.severity "No inputs provided"
      [("path_attr", .vstr rule.path_attr)]
  | inputs =>
    match pygetattr inputs rule.path_attr with
    | none =>
      ruleFail rule.name rule.description rule.severity
        ("Inputs missing '" ++ rule.path_attr ++ "' attribute")
        [("path_attr", .vstr rule.path_attr)]
    | some .vnone =>
      rulePass rule.name rule.description rule.severity
        (rule.dir_type ++ " directory not specified (optional)")
        [("path_attr", .vstr rule.path_attr), ("value", .vnone)]
    | some v =>
      let path := pathOf v
      if !(pfs.pexists path) then
        ruleFail rule.name rule.description rule.severity
          (rule.dir_type ++ " directory not found: " ++ path)
          [("path", .vstr path), ("exists", .vbool false)]
      else if !(pfs.is_dir path) then
        ruleFail rule.name rule.description rule.severity
          (rule.dir_type ++ " path is not a directory: " ++ path)
          [("path", .vstr path), ("is_dir", .vbool false)]
      else
        rulePass rule.name rule.description rule.severity
          (rule.dir_type ++ " directory exists: " ++ path)
          [("path", .vstr path), ("exists", .vbool true)]

/-- `voxelops/validation/rules/common.py` — `FileExistsRule` parameters. -/
structure FileExistsRule where
  path_attr : String
  file_type : String := "File"
  severity : String := "error"
  on_config : Bool := false

/-- `self.name = f"{path_attr}_exists"`. -/
def FileExistsRule.name (r : FileExistsRule) : String :=
  r.path_attr ++ "_exists"

/-- `self.description = f"Verify {file_type} file exists"`. -/
def FileExistsRule.description (r : FileExistsRule) : String :=
  "Verify " ++ r.file_type ++ " file exists"

/-- `FileExistsRule.check`: looks on `config` when `on_config` else on
`inputs`; a present-but-`None` attribute passes as optional. -/
def FileExistsRule.check (rule : FileExistsRule) (pfs : PathFS)
    (context : ValidationContext) : ValidationResult :=
  let source := if rule.on_config then context.config else context.inputs
  let source_name := if rule.on_config then "config" else "inputs"
  let source_cap := if rule.on_config then "Config" else "Inputs"
  match source with
  | .vnone =>
    ruleFail rule.name rule.description rule.severity
      ("No " ++ source_name ++ " provided") [("path_attr", .vstr rule.path_attr)]
  | src =>
    match pygetattr src rule.path_attr with
    | none =>
      ruleFail rule.name rule.description rule.severity
        (source_cap ++ " missing '" ++ rule.path_attr ++ "' attribute")
        [("path_attr", .vstr rule.path_attr)]
    | some .vnone =>
      rulePass rule.name rule.description rule.severity
        (rule.file_type ++ " not specified (optional)")
        [("path_attr", .vstr rule.path_attr), ("value", .vnone)]
    | some v =>
      let path := pathOf v
      if !(pfs.pexists path) then
        ruleFail rule.name rule.description rule.severity
          (rule.file_type ++ " not found: " ++ path)
          [("path", .vstr path), ("exists", .vbool false)]
      else if !(pfs.is_file path) then
        ruleFail rule.name rule.description rule.severity
          (rule.file_type ++ " path is not a file: " ++ path)
          [("path", .vstr path), ("is_file", .vbool false)]
      else
        rulePass rule.name rule.description rule.severity
          (rule.file_type ++ " exists: " ++ path)
          [("path", .vstr path), ("exists", .vbool true)]

/-- `voxelops/validation/rules/common.py` — `OutputDirectoryExistsRule`
parameters (post-validation). -/
structure OutputDirectoryExistsRule where
  output_attr : String
  output_type : String := "Output"

/-- `self.name = f"{output_attr}_created"`. -/
def OutputDirectoryExistsRule.name (r : OutputDirectoryExistsRule) : String :=
  r.output_attr ++ "_created"

/-- `self.description = f"Verify {output_type} directory was created"`. -/
def OutputDirectoryExistsRule.description (r : OutputDirectoryExistsRule) : String :=
  "Verify " ++ r.output_type ++ " directory was created"

/-- `OutputDirectoryExistsRule.check`: fails when `expected_outputs` is `None`,
when the attribute is missing, and — unlike the pre-validation existence
rules — also when the attribute is present but `None` ("path not defined"). -/
def OutputDirectoryExistsRule.check (rule : OutputDirectoryExistsRule)
    (pfs : PathFS) (context : ValidationContext) : ValidationResult :=
  match context.expected_outputs with
  | .vnone =>
    ruleFail rule.name rule.description "error" "No expected outputs defined"
      [("output_attr", .vstr rule.output_attr)]
  | outs =>
    match pygetattr outs rule.output_attr with
    | none =>
      ruleFail rule.name rule.description "error"
        ("Expected outputs missing '" ++ rule.output_attr ++ "'")
        [("output_attr", .vstr rule.output_attr)]
    | some .vnone =>
      ruleFail rule.name rule.description "error"
        (rule.output_type ++ " path not defined")
        [("output_attr", .vstr rule.output_attr)]
    | some v =>
      let path := pathOf v
      if !(pfs.pexists path) then
        ruleFail rule.name rule.description "error"
          (rule.output_type ++ " not created: " ++ path)
          [("path", .vstr path), ("exists", .vbool false)]
      else
        rulePass rule.name rule.description "error"
          (rule.output_type ++ " created: " ++ path)
          [("path", .vstr path), ("exists", .vbool true)]

/-- `voxelops/audit/records.py` — `AuditEventType`. -/
inductive AuditEventType where
  | PROCEDURE_START
  | PRE_VALIDATION
  | PRE_VALIDATION_FAILED
  | EXECUTION_START
  | EXECUTION_SUCCESS
  | EXECUTION_FAILED
  | POST_VALIDATION
  | POST_VALIDATION_FAILED
  | PROCEDURE_COMPLETE
  | PROCEDURE_FAILED
deriving DecidableEq

/-- The enum's string `value`. -/
def AuditEventType.value : AuditEventType → String
  | .PROCEDURE_START => "procedure_start"
  | .PRE_VALIDATION => "pre_validation"
  | .PRE_VALIDATION_FAILED => "pre_validation_failed"
  | .EXECUTION_START => "execution_start"
  | .EXECUTION_SUCCESS => "execution_success"
  | .EXECUTION_FAILED => "execution_failed"
  | .POST_VALIDATION => "post_validation"
  | .POST_VALIDATION_FAILED => "post_validation_failed"
  | .PROCEDURE_COMPLETE => "procedure_complete"
  | .PROCEDURE_FAILED => "procedure_failed"

/-- The three event types whose enum name starts with `EXECUTION_`. -/
def executionEventTypes : List AuditEventType :=
  [.EXECUTION_START, .EXECUTION_SUCCESS, .EXECUTION_FAILED]

/-- `voxelops/audit/records.py` — `AuditRecord` (the `timestamp` field is not
modelled). -/
structure AuditRecord where
  event_type : AuditEventType
  procedure : String
  participant : String
  session : Option String
  data : List (String × PyVal) := []
  run_id : Option String := none

/-- The filesystem state touched by the audit logger: which directories have
been created, and each file's contents as the list of JSON lines appended to
it (one `AuditRecord` per line). -/
structure FileStore where
  dirs : String → Bool
  files : String → Option (List AuditRecord)

/-- `log_dir.mkdir(parents=True, exist_ok=True)`. -/
def FileStore.mkdir (fs : FileStore) (d : String) : FileStore :=
  { fs with dirs := fun q => if q == d then true else fs.dirs q }

/-- `open(log_file, "a")` followed by writing one JSON line: creates the file
when absent and appends one line. -/
def FileStore.appendLine (fs : FileStore) (p : String) (rec : AuditRecord) : FileStore :=
  { fs with files := fun q =>
      if q == p then some ((fs.files p).getD [] ++ [rec]) else fs.files q }

/-- `voxelops/audit/logger.py` — `AuditLogger` state. -/
structure AuditLogger where
  log_dir : String
  procedure : String
  participant : String
  session : Option String
  run_id : String
  records : List AuditRecord := []

/-- `AuditLogger._get_log_file` as a standalone function of its inputs:
`sub-{participant}[_ses-{session}]_{procedure}_{run_id}.jsonl` under
`log_dir`; the `_ses-` part is included only when `session` is truthy
(neither `None` nor the empty string). -/
def log_file_name (log_dir participant : String) (session : Option String)
    (procedure run_id : String) : String :=
  let session_part :=
    match session with
    | some s => if s == "" then "" else "_ses-" ++ s
    | none => ""
  log_dir ++ "/" ++ "sub-" ++ participant ++ session_part ++ "_" ++ procedure ++
    "_" ++ run_id ++ ".jsonl"

/-- `AuditLogger._get_log_file`. -/
def AuditLogger.get_log_file (lg : AuditLogger) : String :=
  log_file_name lg.log_dir lg.participant lg.session lg.procedure lg.run_id

/-- `AuditLogger.__init__`: stores the identifiers, draws a fresh `run_id`
(passed in as `uuid`, the logger's own `uuid.uuid4()` draw), starts with an
empty record list and eagerly creates `log_dir`. -/
def AuditLogger.init (log_dir procedure participant : String)
    (session : Option String) (uuid : String) (fs : FileStore) :
    AuditLogger × FileStore :=
  ({ log_dir := log_dir, procedure := procedure, participant := participant,
     session := session, run_id := uuid, records := [] }, fs.mkdir log_dir)

/-- `AuditLogger.log`: builds one record carrying the logger's `run_id`,
appends it to the in-memory list and writes one line to the log file. -/
def AuditLogger.log (lg : AuditLogger) (fs : FileStore) (event_type : AuditEventType)
    (data : List (String × PyVal)) : AuditLogger × FileStore :=
  let record : AuditRecord :=
    { event_type := event_type, procedure := lg.procedure,
      participant := lg.participant, session := lg.session, data := data,
      run_id := some lg.run_id }
  ({ lg with records := lg.records ++ [record] },
   fs.appendLine lg.get_log_file record)

/-- `AuditLogger.log_validation_report`: picks the (phase, passed)-dependent
event type and logs the report's dict. -/
def AuditLogger.log_validation_report (lg : AuditLogger) (fs : FileStore)
    (report : ValidationReport) : AuditLogger × FileStore :=
  let event_type :=
    if report.phase == "pre" then AuditEventType.PRE_VALIDATION
    else AuditEventType.POST_VALIDATION
  let event_type :=
    if !report.passed then
      (if report.phase == "pre" then AuditEventType.PRE_VALIDATION_FAILED
       else AuditEventType.POST_VALIDATION_FAILED)
    else event_type
  lg.log fs event_type report.to_dict

/-- `voxelops/validation/base.py` — `ValidationRule` as an object: its
metadata plus its `skip_condition` and `check` behaviours. -/
structure ValidationRule where
  name : String := "unnamed_rule"
  description : String := "No description provided"
  severity : String := "error"
  phase : String := "pre"
  skip_condition : ValidationContext → Bool := fun _ => false
  check : ValidationContext → ValidationResult

/-- `voxelops/validation/validators/base.py` — `Validator`. -/
structure Validator where
  procedure_name : String := "unknown"
  pre_rules : List ValidationRule := []
  post_rules : List ValidationRule := []

/-- `Validator.validate_pre`: run every pre-rule whose `skip_condition` is
false, in order, and collect the results into a `"pre"`-phase report. -/
def Validator.validate_pre (v : Validator) (context : ValidationContext) :
    ValidationReport :=
  { phase := "pre", procedure := v.procedure_name,
    participant := context.participant, session := context.session,
    results := (v.pre_rules.filter (fun r => !(r.skip_condition context))).map
      (fun r => r.check context) }

/-- `Validator.validate_post`: same for the post-rules, `"post"` phase. -/
def Validator.validate_post (v : Validator) (context : ValidationContext) :
    ValidationReport :=
  { phase := "post", procedure := v.procedure_name,
    participant := context.participant, session := context.session,
    results := (v.post_rules.filter (fun r => !(r.skip_condition context))).map
      (fun r => r.check context) }

/-- `voxelops/procedures/result.py` — `ProcedureResult` (timestamps not
modelled). -/
structure ProcedureResult where
  procedure : String
  participant : String
  session : Option String
  run_id : String
  status : String
  pre_validation : Option ValidationReport := none
  post_validation : Option ValidationReport := none
  execution : Option ExecMap := none
  audit_log_file : Option String := none

/-- `ProcedureResult.success`: `self.status == "success"`. -/
def ProcedureResult.success (r : ProcedureResult) : Bool :=
  r.status == "success"

/-- The orchestrator's registries: validators and runners by procedure name.
A runner's behaviour at the one call `run_procedure` makes is either a raised
exception (with its `str(e)`) or the returned mapping. -/
structure Registry where
  validators : List (String × Validator)
  runners : List (String × Except String ExecMap)

/-- The external nondeterminism of one `run_procedure` call: the orchestrator's
own `uuid.uuid4()` draw, the logger's `uuid.uuid4()` draw, and `Path.cwd()`. -/
structure RunEnv where
  run_uuid : String
  logger_uuid : String
  cwd : String

/-- The whole observable outcome of a `run_procedure` call: the filesystem
state afterwards and either the raised configuration error or the returned
`ProcedureResult` (paired with the logger, which Python keeps internal; it is
returned here so that specifications can speak about the audit trail). -/
abbrev RunOutput := FileStore × Except String (ProcedureResult × AuditLogger)

/-- The returned `ProcedureResult`, when no exception propagated. -/
def RunOutput.result? (o : RunOutput) : Option ProcedureResult :=
  match o.2 with
  | .ok (r, _) => some r
  | .error _ => none

/-- The audit records accumulated by the run's logger (empty when the call
raised before constructing the logger). -/
def RunOutput.auditRecords (o : RunOutput) : List AuditRecord :=
  match o.2 with
  | .ok (_, lg) => lg.records
  | .error _ => []

/-- The run's logger, when one was constructed and returned. -/
def RunOutput.logger? (o : RunOutput) : Option AuditLogger :=
  match o.2 with
  | .ok (_, lg) => some lg
  | .error _ => none

/-- `inputs.participant` (assumed to be a string attribute; a missing
attribute would raise in Python, outside every claim). -/
def attrStr (v : PyVal) (a : String) : String :=
  match pygetattr v a with
  | some (.vstr s) => s
  | _ => ""

/-- `getattr(inputs, "session", None)`, read as an optional string. -/
def attrOptStr (v : PyVal) (a : String) : Option String :=
  match pygetattr v a with
  | some (.vstr s) => some s
  | _ => none

/-- `_get_default_log_dir`: `inputs.output_dir/logs` when `output_dir` is set
and truthy, else `Path.cwd()/logs`. -/
def get_default_log_dir (env : RunEnv) (inputs : PyVal) : String :=
  match pygetattr inputs "output_dir" with
  | some (.vstr s) => if s == "" then env.cwd ++ "/logs" else s ++ "/logs"
  | _ => env.cwd ++ "/logs"

/-- The log directory `run_procedure` actually uses: the explicit argument
when given, otherwise the default. -/
def resolveLogDir (env : RunEnv) (inputs : PyVal) (log_dir : Option String) : String :=
  match log_dir with
  | some d => d
  | none => get_default_log_dir env inputs

/-- `_inputs_to_dict` (the `__dict__` branch: each attribute stringified). -/
def inputs_to_dict (inputs : PyVal) : List (String × PyVal) :=
  match inputs with
  | .vnone => []
  | .vobj attrs => attrs.map (fun p => (p.1, PyVal.vstr (pyStr p.2)))
  | v => [("inputs", PyVal.vstr (pyStr v))]

/-- `_config_to_dict`. -/
def config_to_dict (config : PyVal) : List (String × PyVal) :=
  match config with
  | .vnone => []
  | .vobj attrs => attrs.map (fun p => (p.1, PyVal.vstr (pyStr p.2)))
  | v => [("config", PyVal.vstr (pyStr v))]

/-- The `PROCEDURE_START` data payload (`_serialize_for_json` is the identity
here since paths are already modelled as strings). -/
def startData (inputs config : PyVal) (overrides : List (String × PyVal)) :
    List (String × PyVal) :=
  [("inputs", .vobj (inputs_to_dict inputs)), ("config", .vobj (config_to_dict config)),
   ("overrides", .vobj overrides)]

/-- The `ValidationContext` `run_procedure` builds before pre-validation. -/
def buildContext (procedure : String) (inputs config : PyVal) : ValidationContext :=
  { procedure_name := procedure, participant := attrStr inputs "participant",
    session := attrOptStr inputs "session", inputs := inputs, config := config }

/-- The context as updated for post-validation: adds the execution result and
`execution_result.get("expected_outputs")`. -/
def postContext (context : ValidationContext) (execution_result : ExecMap) :
    ValidationContext :=
  { context with
    execution_result := some execution_result,
    expected_outputs := dictGet execution_result "expected_outputs" }

/-- The `=== EXECUTION ===` and `=== POST-VALIDATION ===` part of
`run_procedure` (everything after the pre-validation block). -/
def execPhase (validator : Validator) (runner : Except String ExecMap)
    (procedure participant : String) (session : Option String) (run_id : String)
    (context : ValidationContext) (pre_report : Option ValidationReport)
    (skip_post_validation : Bool) (audit : AuditLogger) (fs : FileStore) :
    RunOutput :=
  let (audit, fs) := audit.log fs .EXECUTION_START []
  match runner with
  | Except.error e =>
    let (audit, fs) := audit.log fs .EXECUTION_FAILED [("error", PyVal.vstr e)]
    (fs, Except.ok
      ({ procedure := procedure, participant := participant, session := session,
         run_id := run_id, status := "execution_failed",
         pre_validation := pre_report, post_validation := none,
         execution := some [("error", PyVal.vstr e), ("success", PyVal.vbool false)],
         audit_log_file := some audit.get_log_file }, audit))
  | Except.ok execution_result =>
    let (audit, fs) := audit.log fs .EXECUTION_SUCCESS
      [("duration_seconds", dictGet execution_result "duration_seconds"),
       ("exit_code", dictGet execution_result "exit_code")]
    if skip_post_validation then
      let (audit, fs) := audit.log fs .PROCEDURE_COMPLETE []
      (fs, Except.ok
        ({ procedure := procedure, participant := participant, session := session,
           run_id := run_id, status := "success",
           pre_validation := pre_report, post_validation := none,
           execution := some execution_result,
           audit_log_file := some audit.get_log_file }, audit))
    else
      let context2 := postContext context execution_result
      let post_report := validator.validate_post context2
      let (audit, fs) := audit.log_validation_report fs post_report
      if post_report.passed then
        let (audit, fs) := audit.log fs .PROCEDURE_COMPLETE []
        (fs, Except.ok
          ({ procedure := procedure, participant := participant, session := session,
             run_id := run_id, status := "success",
             pre_validation := pre_report, post_validation := some post_report,
             execution := some execution_result,
             audit_log_file := some audit.get_log_file }, audit))
      else
        (fs, Except.ok
          ({ procedure := procedure, participant := participant, session := session,
             run_id := run_id, status := "post_validation_failed",
             pre_validation := pre_report, post_validation := some post_report,
             execution := some execution_result,
             audit_log_file := some audit.get_log_file }, audit))

/-- `voxelops/procedures/orchestrator.py` — `run_procedure`: registry lookup
(raising `ValueError` on an unknown name before the logger exists), audit
logger construction, `PROCEDURE_START`, optional pre-validation with early
`pre_validation_failed` return, then execution and post-validation. -/
def run_procedure (reg : Registry) (env : RunEnv) (procedure : String)
    (inputs config : PyVal) (log_dir : Option String)
    (skip_pre_validation skip_post_validation : Bool)
    (overrides : List (String × PyVal)) (fs : FileStore) : RunOutput :=
  match alookup procedure reg.validators, alookup procedure reg.runners with
  | some validator, some runner =>
    let run_id := env.run_uuid
    let participant := attrStr inputs "participant"
    let session := attrOptStr inputs "session"
    let the_log_dir := resolveLogDir env inputs log_dir
    let (audit, fs) :=
      AuditLogger.init the_log_dir procedure participant session env.logger_uuid fs
    let (audit, fs) := audit.log fs .PROCEDURE_START (startData inputs config overrides)
    let context := buildContext procedure inputs config
    if skip_pre_validation then
      execPhase validator runner procedure participant session run_id context none
        skip_post_validation audit fs
    else
      let pre_report := validator.validate_pre context
      let (audit, fs) := audit.log_validation_report fs pre_report
      if pre_report.passed then
        execPhase validator runner procedure participant session run_id context
          (some pre_report) skip_post_validation audit fs
      else
        (fs, Except.ok
          ({ procedure := procedure, participant := participant, session := session,
             run_id := run_id, status := "pre_validation_failed",
             pre_validation := some pre_report, post_validation := none,
             execution := none,
             audit_log_file := some audit.get_log_file }, audit))
  | _, _ => (fs, Except.error ("Unknown procedure: " ++ procedure))

/-- Concrete test fixture: a pre-rule that always fails with severity error. -/
def wFailRule : ValidationRule :=
  { name := "always_fails", description := "test rule", severity := "error",
    phase := "pre", skip_condition := fun _ => false,
    check := fun _ => ruleFail "always_fails" "test rule" "error" "boom" [] }

/-- Concrete test fixture: a rule that always passes. -/
def wPassRule : ValidationRule :=
  { name := "always_passes", description := "test rule", severity := "error",
    phase := "pre", skip_condition := fun _ => false,
    check := fun _ => rulePass "always_passes" "test rule" "error" "ok" [] }

/-- Concrete test fixture: validator whose pre-validation fails. -/
def wValidatorFailPre : Validator :=
  { procedure_name := "qsiprep", pre_rules := [wFailRule], post_rules := [] }

/-- Concrete test fixture: validator whose pre- and post-validation pass. -/
def wValidatorPass : Validator :=
  { procedure_name := "qsiprep", pre_rules := [wPassRule], post_rules := [wPassRule] }

/-- Concrete test fixture: inputs with a participant and an output directory. -/
def wInputs : PyVal :=
  .vobj [("participant", .vstr "01"), ("output_dir", .vstr "/out")]

/-- Concrete test fixture: the two UUID draws and the working directory. -/
def wEnv : RunEnv := { run_uuid := "rid-1", logger_uuid := "lid-2", cwd := "/cwd" }

/-- Concrete test fixture: an empty filesystem. -/
def wFS : FileStore := { dirs := fun _ => false, files := fun _ => none }

lemma validate_pre_phase (v : Validator) (ctx : ValidationContext) :
    (v.validate_pre ctx).phase = "pre" := rfl

lemma validate_post_phase (v : Validator) (ctx : ValidationContext) :
    (v.validate_post ctx).phase = "post" := rfl

lemma list_all_congr {α : Type} (l : List α) (f g : α → Bool)
    (h : ∀ a ∈ l, f a = g a) : l.all f = l.all g := by
  induction l with
  | nil => rfl
  | cons a rest ih => simp_all

lemma firstInputDirAttr_eq_head (inputs : PyVal) (l : List String) :
    firstInputDirAttr inputs l = (l.filterMap (presentNonNull inputs)).head? := by
  induction l with
  | nil => rfl
  | cons a rest ih =>
    simp only [firstInputDirAttr, List.filterMap_cons, presentNonNull]
    cases h : pygetattr inputs a with
    | none => simpa using ih
    | some v =>
      cases v <;> simp_all [List.head?]

/-- C4: For every `ValidationReport`, the derived `passed` property is true iff
no result both has severity `"error"` and failed; a report with an empty result
list passes; and failed results whose severity is not `"error"` (warnings,
info) never make `passed` false. -/
theorem validation_report_passed_characterization (rep : ValidationReport) :
    rep.passed = rep.results.all (fun r => !(r.severity == "error" && !r.passed)) ∧
    (rep.results = [] → rep.passed = true) ∧
    ((∀ r ∈ rep.results, r.severity = "error" → r.passed = true) → rep.passed = true) := by
  have hfun : ∀ r : ValidationResult,
      (r.passed || !(r.severity == "error")) = !(r.severity == "error" && !r.passed) := by
    intro r
    cases hp : r.passed <;> cases he : r.severity == "error" <;> simp [hp, he]
  refine ⟨?_, ?_, ?_⟩
  · unfold ValidationReport.passed
    exact list_all_congr _ _ _ (fun r _ => hfun r)
  · intro h
    simp [ValidationReport.passed, h]
  · intro h
    unfold ValidationReport.passed
    rw [List.all_eq_true]
    intro r hr
    by_cases he : r.severity = "error"
    · simp [h r hr he]
    · simp [he]

/-- Witness for C4: a report whose single result is a failed warning passes,
and the empty report passes. -/
theorem validation_report_passed_characterization_witness :
    ValidationReport.passed
      { phase := "pre", procedure := "qsiprep", participant := "01", session := none,
        results := [{ rule_name := "w", rule_description := "w", passed := false,
                      severity := "warning", message := "m" }] } = true ∧
    ValidationReport.passed
      { phase := "pre", procedure := "qsiprep", participant := "01", session := none,
        results := [] } = true := by
  constructor
  · exact (validation_report_passed_characterization
      { phase := "pre", procedure := "qsiprep", participant := "01", session := none,
        results := [{ rule_name := "w", rule_description := "w", passed := false,
                      severity := "warning", message := "m" }] }).2.2
      (by intro r hr he; simp at hr; rw [hr] at he; simp at he)
  · exact (validation_report_passed_characterization
      { phase := "pre", procedure := "qsiprep", participant := "01", session := none,
        results := [] }).2.1 rfl

/-- C10: `ValidationContext.input_dir` probes `bids_dir`, `dicom_dir`,
`qsiprep_dir`, `qsirecon_dir` in that fixed order and returns the first
attribute that is present and non-`None`; it is `none` when `inputs` is `None`
or every candidate is absent or `None`, and an earlier `None`-valued attribute
never shadows a later non-`None` one. -/
theorem input_dir_ordered_first_non_null (ctx : ValidationContext) :
    (ctx.inputs = .vnone → ctx.input_dir = none) ∧
    (ctx.inputs ≠ .vnone →
      ctx.input_dir = (inputDirCandidates.filterMap (presentNonNull ctx.inputs)).head?) ∧
    ((∀ a ∈ inputDirCandidates, presentNonNull ctx.inputs a = none) →
      ctx.input_dir = none) := by
  refine ⟨?_, ?_, ?_⟩
  · intro h
    simp [ValidationContext.input_dir, h]
  · intro h
    unfold ValidationContext.input_dir
    rw [← firstInputDirAttr_eq_head]
    cases hi : ctx.inputs <;> simp_all
  · intro h
    have hz : inputDirCandidates.filterMap (presentNonNull ctx.inputs) = [] :=
      List.filterMap_eq_nil_iff.mpr (fun a ha => h a ha)
    unfold ValidationContext.input_dir
    cases hi : ctx.inputs
    case vnone => rfl
    all_goals
      show firstInputDirAttr _ inputDirCandidates = none
      rw [firstInputDirAttr_eq_head, ← hi, hz]
      rfl

/-- Witness for C10: with `bids_dir = None` and `dicom_dir = "/dicom"`, the
probe skips the earlier `None`-valued candidate and returns the later one. -/
theorem input_dir_ordered_first_non_null_witness :
    ValidationContext.input_dir
      { procedure_name := "heudiconv", participant := "01",
        inputs := .vobj [("bids_dir", .vnone), ("dicom_dir", .vstr "/dicom")] } =
      some (.vstr "/dicom") := by
  have h := (input_dir_ordered_first_non_null
      { procedure_name := "heudiconv", participant := "01",
        inputs := .vobj [("bids_dir", .vnone), ("dicom_dir", .vstr "/dicom")] }).2.1
    (by simp)
  rw [h]
  rfl

/-- C6 counterexample: the post-validation output-directory existence rule
does NOT treat a present-but-`None` path as a pass: on
`expected_outputs.output_dir = None` it fails with "Output path not defined"
instead of passing with a "not specified (optional)" message. -/
theorem output_directory_rule_none_path_fails_counterexample :
    (OutputDirectoryExistsRule.check
        { output_attr := "output_dir" }
        { pexists := fun _ => false, is_dir := fun _ => false, is_file := fun _ => false }
        { procedure_name := "qsiprep", participant := "01",
          expected_outputs := .vobj [("output_dir", .vnone)] }).passed = false ∧
    (OutputDirectoryExistsRule.check
        { output_attr := "output_dir" }
        { pexists := fun _ => false, is_dir := fun _ => false, is_file := fun _ => false }
        { procedure_name := "qsiprep", participant := "01",
          expected_outputs := .vobj [("output_dir", .vnone)] }).message =
      "Output path not defined" :=
  ⟨rfl, rfl⟩

/-- C6 (amended): for any filesystem and context, a present-but-`None` path
attribute yields a pass with a "not specified (optional)" message for the
inputs/config existence rules (`DirectoryExistsRule`, `FileExistsRule`); the
post-validation `OutputDirectoryExistsRule`, however, fails on a `None` path
with a "path not defined" message. -/
theorem existence_rules_unset_optional_path (pfs : PathFS) (ctx : ValidationContext)
    (dr : DirectoryExistsRule) (fr : FileExistsRule) (orr : OutputDirectoryExistsRule)
    (hd : pygetattr ctx.inputs dr.path_attr = some .vnone)
    (hf : pygetattr (if fr.on_config then ctx.config else ctx.inputs) fr.path_attr =
      some .vnone)
    (ho : pygetattr ctx.expected_outputs orr.output_attr = some .vnone) :
    ((dr.check pfs ctx).passed = true ∧
      (dr.check pfs ctx).message = dr.dir_type ++ " directory not specified (optional)") ∧
    ((fr.check pfs ctx).passed = true ∧
      (fr.check pfs ctx).message = fr.file_type ++ " not specified (optional)") ∧
    ((orr.check pfs ctx).passed = false ∧
      (orr.check pfs ctx).message = orr.output_type ++ " path not defined") := by
  obtain ⟨pn, pa, se, inp, cfg, eo, er⟩ := ctx
  refine ⟨?_, ?_, ?_⟩
  · cases inp <;> simp_all [pygetattr, DirectoryExistsRule.check, rulePass]
  · cases hb : fr.on_config <;> rw [hb] at hf <;> simp only [if_true, if_false] at hf ⊢
    · cases inp <;> simp_all [pygetattr, FileExistsRule.check, rulePass, hb]
    · cases cfg <;> simp_all [pygetattr, FileExistsRule.check, rulePass, hb]
  · cases eo <;> simp_all [pygetattr, OutputDirectoryExistsRule.check, ruleFail]

/-- Witness for C6 (amended): concrete contexts where `bids_dir` on inputs,
`config_file` on config, and `output_dir` on expected outputs are all present
but `None`. -/
theorem existence_rules_unset_optional_path_witness :
    (DirectoryExistsRule.check { path_attr := "bids_dir", dir_type := "BIDS" }
        { pexists := fun _ => false, is_dir := fun _ => false, is_file := fun _ => false }
        { procedure_name := "qsiprep", participant := "01",
          inputs := .vobj [("bids_dir", .vnone)],
          config := .vobj [("config_file", .vnone)],
          expected_outputs := .vobj [("output_dir", .vnone)] }).passed = true ∧
    (FileExistsRule.check { path_attr := "config_file", on_config := true }
        { pexists := fun _ => false, is_dir := fun _ => false, is_file := fun _ => false }
        { procedure_name := "qsiprep", participant := "01",
          inputs := .vobj [("bids_dir", .vnone)],
          config := .vobj [("config_file", .vnone)],
          expected_outputs := .vobj [("output_dir", .vnone)] }).passed = true ∧
    (OutputDirectoryExistsRule.check { output_attr := "output_dir" }
        { pexists := fun _ => false, is_dir := fun _ => false, is_file := fun _ => false }
        { procedure_name := "qsiprep", participant := "01",
          inputs := .vobj [("bids_dir", .vnone)],
          config := .vobj [("config_file", .vnone)],
          expected_outputs := .vobj [("output_dir", .vnone)] }).passed = false := by
  have h := existence_rules_unset_optional_path
    { pexists := fun _ => false, is_dir := fun _ => false, is_file := fun _ => false }
    { procedure_name := "qsiprep", participant := "01",
      inputs := .vobj [("bids_dir", .vnone)],
      config := .vobj [("config_file", .vnone)],
      expected_outputs := .vobj [("output_dir", .vnone)] }
    { path_attr := "bids_dir", dir_type := "BIDS" }
    { path_attr := "config_file", on_config := true }
    { output_attr := "output_dir" }
    rfl rfl rfl
  exact ⟨h.1.1, h.2.1.1, h.2.2.1⟩

/-- C5: a procedure name missing from the validator registry or the runner
registry makes `run_procedure` raise `ValueError("Unknown procedure: ...")`
synchronously, before the `AuditLogger` is constructed: the filesystem state
is returned untouched (no directory created, no line logged) and no
`ProcedureResult` is produced. -/
theorem run_procedure_unknown_name_raises_before_logging
    (reg : Registry) (env : RunEnv) (procedure : String) (inputs config : PyVal)
    (log_dir : Option String) (sp spo : Bool) (ov : List (String × PyVal))
    (fs0 : FileStore)
    (h : alookup procedure reg.validators = none ∨
      alookup procedure reg.runners = none) :
    run_procedure reg env procedure inputs config log_dir sp spo ov fs0 =
      (fs0, Except.error ("Unknown procedure: " ++ procedure)) := by
  unfold run_procedure
  rcases h with h | h
  · rw [h]
  · rw [h]
    cases alookup procedure reg.validators <;> rfl

/-- Witness for C5: the empty registry knows no procedure, so the call with
name "not_a_real_tool" raises and leaves the (empty) filesystem unchanged. -/
theorem run_procedure_unknown_name_raises_before_logging_witness :
    run_procedure { validators := [], runners := [] }
      { run_uuid := "u1", logger_uuid := "u2", cwd := "/cwd" }
      "not_a_real_tool" (.vobj [("participant", .vstr "01")]) .vnone none
      false false [] { dirs := fun _ => false, files := fun _ => none } =
    ({ dirs := fun _ => false, files := fun _ => none },
      Except.error ("Unknown procedure: " ++ "not_a_real_tool")) :=
  run_procedure_unknown_name_raises_before_logging
    { validators := [], runners := [] }
    { run_uuid := "u1", logger_uuid := "u2", cwd := "/cwd" }
    "not_a_real_tool" (.vobj [("participant", .vstr "01")]) .vnone none
    false false [] { dirs := fun _ => false, files := fun _ => none }
    (Or.inl rfl)

/-- C2: when pre-validation is enabled and its report fails, the Runner is
never invoked — the whole run outcome is identical for any two registries that
agree on the validator, whatever their runner behaviours are — no
`EXECUTION_*` audit event is logged, and the result is exactly the
`pre_validation_failed` record with the report attached and `execution` and
`post_validation` left `None`. -/
theorem run_procedure_pre_validation_failure_blocks_runner
    (reg1 reg2 : Registry) (env : RunEnv) (procedure : String)
    (inputs config : PyVal) (log_dir : Option String) (spo : Bool)
    (ov : List (String × PyVal)) (fs0 : FileStore) (validator : Validator)
    (beh1 beh2 : Except String ExecMap)
    (hv1 : alookup procedure reg1.validators = some validator)
    (hv2 : alookup procedure reg2.validators = some validator)
    (hr1 : alookup procedure reg1.runners = some beh1)
    (hr2 : alookup procedure reg2.runners = some beh2)
    (hfail : (validator.validate_pre (buildContext procedure inputs config)).passed
      = false) :
    run_procedure reg2 env procedure inputs config log_dir false spo ov fs0 =
      run_procedure reg1 env procedure inputs config log_dir false spo ov fs0 ∧
    (run_procedure reg1 env procedure inputs config log_dir false spo ov fs0).result?
      = some
        { procedure := procedure, participant := attrStr inputs "participant",
          session := attrOptStr inputs "session", run_id := env.run_uuid,
          status := "pre_validation_failed",
          pre_validation :=
            some (validator.validate_pre (buildContext procedure inputs config)),
          post_validation := none, execution := none,
          audit_log_file := some (log_file_name (resolveLogDir env inputs log_dir)
            (attrStr inputs "participant") (attrOptStr inputs "session") procedure
            env.logger_uuid) } ∧
    ∀ r ∈ (run_procedure reg1 env procedure inputs config log_dir false spo ov
        fs0).auditRecords, r.event_type ∉ executionEventTypes := by
  refine ⟨?_, ?_, ?_⟩
  · simp only [run_procedure, hv1, hv2, hr1, hr2, Bool.false_eq_true, if_false,
      hfail]
  · simp [run_procedure, hv1, hr1, hfail, RunOutput.result?, AuditLogger.init,
      AuditLogger.log, AuditLogger.log_validation_report, AuditLogger.get_log_file,
      FileStore.mkdir, FileStore.appendLine]
  · simp [run_procedure, hv1, hr1, hfail, RunOutput.auditRecords, AuditLogger.init,
      AuditLogger.log, AuditLogger.log_validation_report, FileStore.mkdir,
      FileStore.appendLine, executionEventTypes, validate_pre_phase]

/-- Witness for C2: a registry whose runner returns and one whose runner
raises produce the very same failed-pre-validation outcome. -/
theorem run_procedure_pre_validation_failure_blocks_runner_witness :
    run_procedure
        { validators := [("qsiprep", wValidatorFailPre)],
          runners := [("qsiprep", Except.error "runner boom")] }
        wEnv "qsiprep" wInputs .vnone none false false [] wFS =
      run_procedure
        { validators := [("qsiprep", wValidatorFailPre)],
          runners := [("qsiprep", Except.ok [("success", .vbool true)])] }
        wEnv "qsiprep" wInputs .vnone none false false [] wFS ∧
    (run_procedure
        { validators := [("qsiprep", wValidatorFailPre)],
          runners := [("qsiprep", Except.ok [("success", .vbool true)])] }
        wEnv "qsiprep" wInputs .vnone none false false [] wFS).result?.map
      (fun r => r.status) = some "pre_validation_failed" := by
  have h := run_procedure_pre_validation_failure_blocks_runner
    { validators := [("qsiprep", wValidatorFailPre)],
      runners := [("qsiprep", Except.ok [("success", .vbool true)])] }
    { validators := [("qsiprep", wValidatorFailPre)],
      runners := [("qsiprep", Except.error "runner boom")] }
    wEnv "qsiprep" wInputs .vnone none false [] wFS wValidatorFailPre
    (Except.ok [("success", .vbool true)]) (Except.error "runner boom")
    rfl rfl rfl rfl rfl
  exact ⟨h.1, by rw [h.2.1]; rfl⟩

/-- C3: when the Runner raises with message `e` (and the run reached
execution, i.e. pre-validation was skipped or passed), no exception propagates
— the call still returns `Except.ok` — the result has status
`"execution_failed"`, `post_validation` is `None`, `execution` is the mapping
`{"error": e, "success": False}`, and an `EXECUTION_FAILED` audit record
carrying that same error string was logged. -/
theorem run_procedure_runner_exception_captured
    (reg : Registry) (env : RunEnv) (procedure : String) (inputs config : PyVal)
    (log_dir : Option String) (sp spo : Bool) (ov : List (String × PyVal))
    (fs0 : FileStore) (validator : Validator) (e : String)
    (hv : alookup procedure reg.validators = some validator)
    (hr : alookup procedure reg.runners = some (Except.error e))
    (hpre : sp = true ∨
      (validator.validate_pre (buildContext procedure inputs config)).passed = true) :
    ∃ result lg,
      (run_procedure reg env procedure inputs config log_dir sp spo ov fs0).2 =
        Except.ok (result, lg) ∧
      result.status = "execution_failed" ∧
      result.post_validation = none ∧
      result.execution =
        some [("error", PyVal.vstr e), ("success", PyVal.vbool false)] ∧
      ∃ r ∈ lg.records, r.event_type = AuditEventType.EXECUTION_FAILED ∧
        r.data = [("error", PyVal.vstr e)] := by
  cases sp with
  | true =>
    simp only [run_procedure, hv, hr, execPhase, AuditLogger.init, AuditLogger.log,
      AuditLogger.log_validation_report, FileStore.mkdir, FileStore.appendLine,
      if_true]
    refine ⟨_, _, rfl, rfl, rfl, rfl, ?_⟩
    simp
  | false =>
    rcases hpre with h | hpre
    · exact absurd h (by simp)
    · simp only [run_procedure, hv, hr, execPhase, AuditLogger.init, AuditLogger.log,
        AuditLogger.log_validation_report, FileStore.mkdir, FileStore.appendLine,
        Bool.false_eq_true, if_false, hpre, if_true]
      refine ⟨_, _, rfl, rfl, rfl, rfl, ?_⟩
      simp

/-- Witness for C3: a runner that raises "disk full" after a passing
pre-validation yields `execution_failed` with the verbatim error captured. -/
theorem run_procedure_runner_exception_captured_witness :
    (run_procedure
        { validators := [("qsiprep", wValidatorPass)],
          runners := [("qsiprep", Except.error "disk full")] }
        wEnv "qsiprep" wInputs .vnone none false false [] wFS).result?.map
      (fun r => r.status) = some "execution_failed" ∧
    (run_procedure
        { validators := [("qsiprep", wValidatorPass)],
          runners := [("qsiprep", Except.error "disk full")] }
        wEnv "qsiprep" wInputs .vnone none false false [] wFS).result?.map
      (fun r => r.execution) =
      some (some [("error", PyVal.vstr "disk full"), ("success", PyVal.vbool false)]) := by
  obtain ⟨result, lg, hok, hst, hpv, hex, -⟩ :=
    run_procedure_runner_exception_captured
      { validators := [("qsiprep", wValidatorPass)],
        runners := [("qsiprep", Except.error "disk full")] }
      wEnv "qsiprep" wInputs .vnone none false false [] wFS wValidatorPass
      "disk full" rfl rfl (Or.inr rfl)
  constructor <;> simp [RunOutput.result?, hok, hst, hex]

set_option maxHeartbeats 1000000 in
/-- C1: when the Runner returns a mapping whose own `success` flag is `false`
(e.g. a non-zero exit code), post-validation is not skipped and its report
passes, the result status is `"success"` and `execution` is exactly the
Runner's returned mapping: the terminal status is decided by the
post-validation report alone, never by the execution result's internal
`success` flag. -/
theorem run_procedure_success_ignores_runner_success_flag
    (reg : Registry) (env : RunEnv) (procedure : String) (inputs config : PyVal)
    (log_dir : Option String) (sp : Bool) (ov : List (String × PyVal))
    (fs0 : FileStore) (validator : Validator) (exec : ExecMap)
    (hv : alookup procedure reg.validators = some validator)
    (hr : alookup procedure reg.runners = some (Except.ok exec))
    (hflag : dictGet exec "success" = PyVal.vbool false)
    (hpre : sp = true ∨
      (validator.validate_pre (buildContext procedure inputs config)).passed = true)
    (hpost : (validator.validate_post
      (postContext (buildContext procedure inputs config) exec)).passed = true) :
    ∃ result lg,
      (run_procedure reg env procedure inputs config log_dir sp false ov fs0).2 =
        Except.ok (result, lg) ∧
      result.status = "success" ∧
      result.success = true ∧
      result.execution = some exec ∧
      result.post_validation = some (validator.validate_post
        (postContext (buildContext procedure inputs config) exec)) := by
  cases sp with
  | true =>
    simp only [run_procedure, hv, hr, execPhase, AuditLogger.init, AuditLogger.log,
      AuditLogger.log_validation_report, FileStore.mkdir, FileStore.appendLine,
      if_true, Bool.false_eq_true, if_false, hpost]
    exact ⟨_, _, rfl, rfl, rfl, rfl, rfl⟩
  | false =>
    rcases hpre with h | hpre
    · exact absurd h (by simp)
    · simp only [run_procedure, hv, hr, execPhase, AuditLogger.init, AuditLogger.log,
        AuditLogger.log_validation_report, FileStore.mkdir, FileStore.appendLine,
        Bool.false_eq_true, if_false, hpre, if_true, hpost]
      exact ⟨_, _, rfl, rfl, rfl, rfl, rfl⟩

/-- Witness for C1: the runner reports `success=False` (exit code 1), yet a
passing post-validation makes the overall status `"success"` with the runner's
mapping attached. -/
theorem run_procedure_success_ignores_runner_success_flag_witness :
    (run_procedure
        { validators := [("qsiprep", wValidatorPass)],
          runners := [("qsiprep",
            Except.ok [("success", .vbool false), ("exit_code", .vnat 1)])] }
        wEnv "qsiprep" wInputs .vnone none false false [] wFS).result?.map
      (fun r => r.status) = some "success" ∧
    (run_procedure
        { validators := [("qsiprep", wValidatorPass)],
          runners := [("qsiprep",
            Except.ok [("success", .vbool false), ("exit_code", .vnat 1)])] }
        wEnv "qsiprep" wInputs .vnone none false false [] wFS).result?.map
      (fun r => r.execution) =
      some (some [("success", PyVal.vbool false), ("exit_code", PyVal.vnat 1)]) := by
  obtain ⟨result, lg, hok, hst, hsu, hex, -⟩ :=
    run_procedure_success_ignores_runner_success_flag
      { validators := [("qsiprep", wValidatorPass)],
        runners := [("qsiprep",
          Except.ok [("success", .vbool false), ("exit_code", .vnat 1)])] }
      wEnv "qsiprep" wInputs .vnone none false [] wFS wValidatorPass
      [("success", .vbool false), ("exit_code", .vnat 1)]
      rfl rfl rfl (Or.inr rfl) rfl
  constructor <;> simp [RunOutput.result?, hok, hst, hex]

lemma validate_post_congr (v1 v2 : Validator)
    (hname : v1.procedure_name = v2.procedure_name)
    (hpost : v1.post_rules = v2.post_rules) (ctx : ValidationContext) :
    v1.validate_post ctx = v2.validate_post ctx := by
  simp [Validator.validate_post, hname, hpost]

lemma execPhase_validator_congr (v1 v2 : Validator)
    (hname : v1.procedure_name = v2.procedure_name)
    (hpost : v1.post_rules = v2.post_rules)
    (runner : Except String ExecMap) (procedure participant : String)
    (session : Option String) (run_id : String) (context : ValidationContext)
    (pre_report : Option ValidationReport) (spo : Bool) (audit : AuditLogger)
    (fs : FileStore) :
    execPhase v1 runner procedure participant session run_id context pre_report
      spo audit fs =
    execPhase v2 runner procedure participant session run_id context pre_report
      spo audit fs := by
  unfold execPhase
  cases runner with
  | error e => rfl
  | ok exec => simp only [validate_post_congr v1 v2 hname hpost]

/-- Every branch of the execution / post-validation phase returns `Except.ok`,
appends an `EXECUTION_START` record and then only non-pre-validation records,
all carrying the logger's `run_id`; it keeps the logger's identity fields and
keeps the log file in sync with the in-memory records. -/
lemma execPhase_shape (validator : Validator) (runner : Except String ExecMap)
    (procedure participant : String) (session : Option String) (run_id : String)
    (context : ValidationContext) (pre_report : Option ValidationReport)
    (spo : Bool) (audit : AuditLogger) (fs : FileStore) :
    ∃ result lg fsOut,
      execPhase validator runner procedure participant session run_id context
        pre_report spo audit fs = (fsOut, Except.ok (result, lg)) ∧
      result.run_id = run_id ∧
      result.pre_validation = pre_report ∧
      result.audit_log_file = some lg.get_log_file ∧
      lg.log_dir = audit.log_dir ∧
      lg.participant = audit.participant ∧
      lg.session = audit.session ∧
      lg.procedure = audit.procedure ∧
      lg.run_id = audit.run_id ∧
      (∀ r ∈ lg.records, r ∈ audit.records ∨
        (r.run_id = some audit.run_id ∧
          r.event_type ≠ AuditEventType.PRE_VALIDATION ∧
          r.event_type ≠ AuditEventType.PRE_VALIDATION_FAILED)) ∧
      ((lg.records.map (fun r => r.event_type)).take (audit.records.length + 1) =
        audit.records.map (fun r => r.event_type) ++
          [AuditEventType.EXECUTION_START]) ∧
      lg.records ≠ [] ∧
      (fs.files audit.get_log_file = some audit.records →
        fsOut.files lg.get_log_file = some lg.records) := by
  unfold execPhase
  have hmem2 : ∀ l : List AuditRecord, ∀ a r : AuditRecord,
      r ∈ (l ++ [a]) → r ∈ l ∨ r = a := by
    intro l a r hr
    simpa using hr
  cases runner with
  | error e =>
    simp only [AuditLogger.log]
    refine ⟨_, _, _, rfl, rfl, rfl, rfl, rfl, rfl, rfl, rfl, rfl, ?_, ?_, ?_, ?_⟩
    · intro r hr
      rcases hmem2 _ _ _ hr with hr | rfl
      · rcases hmem2 _ _ _ hr with hr | rfl
        · exact Or.inl hr
        · exact Or.inr ⟨rfl, by simp, by simp⟩
      · exact Or.inr ⟨rfl, by simp, by simp⟩
    · simp [List.append_assoc, List.take_append_eq_append_take]
    · simp
    · intro hsync
      simp only [AuditLogger.get_log_file] at hsync
      simp [FileStore.appendLine, AuditLogger.get_log_file, hsync]
  | ok exec =>
    cases spo with
    | true =>
      simp only [AuditLogger.log, if_true]
      refine ⟨_, _, _, rfl, rfl, rfl, rfl, rfl, rfl, rfl, rfl, rfl, ?_, ?_, ?_, ?_⟩
      · intro r hr
        rcases hmem2 _ _ _ hr with hr | rfl
        · rcases hmem2 _ _ _ hr with hr | rfl
          · rcases hmem2 _ _ _ hr with hr | rfl
            · exact Or.inl hr
            · exact Or.inr ⟨rfl, by simp, by simp⟩
          · exact Or.inr ⟨rfl, by simp, by simp⟩
        · exact Or.inr ⟨rfl, by simp, by simp⟩
      · simp [List.append_assoc, List.take_append_eq_append_take]
      · simp
      · intro hsync
        simp only [AuditLogger.get_log_file] at hsync
        simp [FileStore.appendLine, AuditLogger.get_log_file, hsync]
    | false =>
      simp only [AuditLogger.log, AuditLogger.log_validation_report,
        Bool.false_eq_true, if_false]
      split
      all_goals
        refine ⟨_, _, _, rfl, rfl, rfl, rfl, rfl, rfl, rfl, rfl, rfl, ?_, ?_, ?_, ?_⟩
      · intro r hr
        rcases hmem2 _ _ _ hr with hr | rfl
        · rcases hmem2 _ _ _ hr with hr | rfl
          · rcases hmem2 _ _ _ hr with hr | rfl
            · rcases hmem2 _ _ _ hr with hr | rfl
              · exact Or.inl hr
              · exact Or.inr ⟨rfl, by simp, by simp⟩
            · exact Or.inr ⟨rfl, by simp, by simp⟩
          · refine Or.inr ⟨rfl, ?_, ?_⟩ <;>
              simp [validate_post_phase] <;> split <;> simp
        · exact Or.inr ⟨rfl, by simp, by simp⟩
      · simp [List.append_assoc, List.take_append_eq_append_take]
      · simp
      · intro hsync
        simp only [AuditLogger.get_log_file] at hsync
        simp [FileStore.appendLine, AuditLogger.get_log_file, hsync]
      · intro r hr
        rcases hmem2 _ _ _ hr with hr | rfl
        · rcases hmem2 _ _ _ hr with hr | rfl
          · rcases hmem2 _ _ _ hr with hr | rfl
            · exact Or.inl hr
            · exact Or.inr ⟨rfl, by simp, by simp⟩
          · exact Or.inr ⟨rfl, by simp, by simp⟩
        · refine Or.inr ⟨rfl, ?_, ?_⟩ <;>
            simp [validate_post_phase] <;> split <;> simp
      · simp [List.append_assoc, List.take_append_eq_append_take]
      · simp
      · intro hsync
        simp only [AuditLogger.get_log_file] at hsync
        simp [FileStore.appendLine, AuditLogger.get_log_file, hsync]

/-- Any `run_procedure` call that passes the registry lookup returns
`Except.ok`; the result carries the orchestrator's `run_uuid` while the
logger, its records and the log-file name all carry the logger's
`logger_uuid`; at least one record is logged; and on a fresh store the log
file's lines are exactly the in-memory records. -/
lemma run_found_spec (reg : Registry) (env : RunEnv) (procedure : String)
    (inputs config : PyVal) (log_dir : Option String) (sp spo : Bool)
    (ov : List (String × PyVal)) (fs0 : FileStore) (validator : Validator)
    (beh : Except String ExecMap)
    (hv : alookup procedure reg.validators = some validator)
    (hr : alookup procedure reg.runners = some beh) :
    ∃ result lg fsOut,
      run_procedure reg env procedure inputs config log_dir sp spo ov fs0 =
        (fsOut, Except.ok (result, lg)) ∧
      result.run_id = env.run_uuid ∧
      result.audit_log_file = some lg.get_log_file ∧
      lg.get_log_file = log_file_name (resolveLogDir env inputs log_dir)
        (attrStr inputs "participant") (attrOptStr inputs "session") procedure
        env.logger_uuid ∧
      lg.run_id = env.logger_uuid ∧
      (∀ r ∈ lg.records, r.run_id = some env.logger_uuid) ∧
      lg.records ≠ [] ∧
      (fs0.files (log_file_name (resolveLogDir env inputs log_dir)
          (attrStr inputs "participant") (attrOptStr inputs "session") procedure
          env.logger_uuid) = none →
        fsOut.files lg.get_log_file = some lg.records) := by
  have key : ∀ (PR : Option ValidationReport) (A : AuditLogger) (F : FileStore),
      A.log_dir = resolveLogDir env inputs log_dir →
      A.participant = attrStr inputs "participant" →
      A.session = attrOptStr inputs "session" →
      A.procedure = procedure →
      A.run_id = env.logger_uuid →
      (∀ r ∈ A.records, r.run_id = some env.logger_uuid) →
      (fs0.files (log_file_name (resolveLogDir env inputs log_dir)
          (attrStr inputs "participant") (attrOptStr inputs "session") procedure
          env.logger_uuid) = none → F.files A.get_log_file = some A.records) →
      ∃ result lg fsOut,
        execPhase validator beh procedure (attrStr inputs "participant")
          (attrOptStr inputs "session") env.run_uuid
          (buildContext procedure inputs config) PR spo A F =
          (fsOut, Except.ok (result, lg)) ∧
        result.run_id = env.run_uuid ∧
        result.audit_log_file = some lg.get_log_file ∧
        lg.get_log_file = log_file_name (resolveLogDir env inputs log_dir)
          (attrStr inputs "participant") (attrOptStr inputs "session") procedure
          env.logger_uuid ∧
        lg.run_id = env.logger_uuid ∧
        (∀ r ∈ lg.records, r.run_id = some env.logger_uuid) ∧
        lg.records ≠ [] ∧
        (fs0.files (log_file_name (resolveLogDir env inputs log_dir)
            (attrStr inputs "participant") (attrOptStr inputs "session") procedure
            env.logger_uuid) = none →
          fsOut.files lg.get_log_file = some lg.records) := by
    intro PR A F hld hpart hsess hproc hrid hrecs hFsync
    obtain ⟨result, lg, fsOut, heq, hrun, hprev, hfile, gld, gpart, gsess, gproc,
      grid, gmem, gtake, gne, gsync⟩ :=
      execPhase_shape validator beh procedure (attrStr inputs "participant")
        (attrOptStr inputs "session") env.run_uuid
        (buildContext procedure inputs config) PR spo A F
    have hpath : lg.get_log_file = log_file_name (resolveLogDir env inputs log_dir)
        (attrStr inputs "participant") (attrOptStr inputs "session") procedure
        env.logger_uuid := by
      simp only [AuditLogger.get_log_file, gld, gpart, gsess, gproc, grid, hld,
        hpart, hsess, hproc, hrid]
    refine ⟨result, lg, fsOut, heq, hrun, hfile, hpath, grid.trans hrid, ?_, gne, ?_⟩
    · intro r hrm
      rcases gmem r hrm with hmm | hmm
      · exact hrecs r hmm
      · rw [hmm.1, hrid]
    · intro hfresh
      exact gsync (hFsync hfresh)
  cases sp with
  | true =>
    simp only [run_procedure, hv, hr, if_true, AuditLogger.init, AuditLogger.log,
      FileStore.mkdir]
    refine key none _ _ rfl rfl rfl rfl rfl ?_ ?_
    · intro r hrm
      simp only [List.nil_append, List.mem_singleton] at hrm
      rw [hrm]
    · intro hfresh
      simp only [AuditLogger.get_log_file, log_file_name]
      simp only [AuditLogger.get_log_file, log_file_name] at hfresh
      simp only [beq_iff_eq] at hfresh
      simp [FileStore.appendLine, FileStore.mkdir, hfresh]
  | false =>
    simp only [run_procedure, hv, hr, Bool.false_eq_true, if_false,
      AuditLogger.init, AuditLogger.log, AuditLogger.log_validation_report,
      FileStore.mkdir, validate_pre_phase]
    split
    · -- pre-validation passed: continue into the execution phase
      refine key _ _ _ rfl rfl rfl rfl rfl ?_ ?_
      · intro r hrm
        simp only [List.nil_append, List.mem_append, List.mem_singleton] at hrm
        rcases hrm with hrm | hrm <;> rw [hrm]
      · intro hfresh
        simp only [AuditLogger.get_log_file, log_file_name]
        simp only [AuditLogger.get_log_file, log_file_name] at hfresh
        simp only [beq_iff_eq] at hfresh
        simp [FileStore.appendLine, FileStore.mkdir, hfresh]
    · -- pre-validation failed: the early return
      refine ⟨_, _, _, rfl, rfl, rfl, ?_, rfl, ?_, ?_, ?_⟩
      · simp only [AuditLogger.get_log_file]
      · intro r hrm
        simp only [List.nil_append, List.mem_append, List.mem_singleton] at hrm
        rcases hrm with hrm | hrm <;> rw [hrm]
      · simp
      · intro hfresh
        simp only [AuditLogger.get_log_file, log_file_name]
        simp only [AuditLogger.get_log_file, log_file_name] at hfresh
        simp only [beq_iff_eq] at hfresh
        simp [FileStore.appendLine, FileStore.mkdir, hfresh]

/-- C7: any run that passes the registry lookup (reaches the Start state)
leaves the audit log file existing under the resolved log directory with the
name `sub-{participant}[_ses-{session}]_{procedure}_{run_id}.jsonl`, and —
starting from a store where that file does not yet exist — its lines are
exactly the logger's in-memory records, one line per `audit.log(...)` call in
call order, so file line count and `records` length are both the number of
log calls; at least one line is always written. -/
theorem audit_log_file_one_line_per_log_call
    (reg : Registry) (env : RunEnv) (procedure : String) (inputs config : PyVal)
    (log_dir : Option String) (sp spo : Bool) (ov : List (String × PyVal))
    (fs0 : FileStore) (validator : Validator) (beh : Except String ExecMap)
    (hv : alookup procedure reg.validators = some validator)
    (hr : alookup procedure reg.runners = some beh)
    (hfresh : fs0.files (log_file_name (resolveLogDir env inputs log_dir)
      (attrStr inputs "participant") (attrOptStr inputs "session") procedure
      env.logger_uuid) = none) :
    ∃ result lg fsOut,
      run_procedure reg env procedure inputs config log_dir sp spo ov fs0 =
        (fsOut, Except.ok (result, lg)) ∧
      result.audit_log_file = some (log_file_name (resolveLogDir env inputs log_dir)
        (attrStr inputs "participant") (attrOptStr inputs "session") procedure
        env.logger_uuid) ∧
      fsOut.files (log_file_name (resolveLogDir env inputs log_dir)
        (attrStr inputs "participant") (attrOptStr inputs "session") procedure
        env.logger_uuid) = some lg.records ∧
      lg.records ≠ [] := by
  obtain ⟨result, lg, fsOut, heq, hrun, hfile, hpath, hrid, hrecs, hne, hsync⟩ :=
    run_found_spec reg env procedure inputs config log_dir sp spo ov fs0
      validator beh hv hr
  refine ⟨result, lg, fsOut, heq, ?_, ?_, hne⟩
  · rw [hfile, hpath]
  · rw [← hpath]
    exact hsync hfresh

/-- Witness for C7: a concrete successful run writes its records to
`/out/logs/sub-01_qsiprep_lid-2.jsonl` and that file is non-empty. -/
theorem audit_log_file_one_line_per_log_call_witness :
    (run_procedure
        { validators := [("qsiprep", wValidatorPass)],
          runners := [("qsiprep", Except.ok [("exit_code", .vnat 0)])] }
        wEnv "qsiprep" wInputs .vnone none false false [] wFS).result?.map
      (fun r => r.audit_log_file) =
      some (some (log_file_name "/out/logs" "01" none "qsiprep" "lid-2")) ∧
    ((run_procedure
        { validators := [("qsiprep", wValidatorPass)],
          runners := [("qsiprep", Except.ok [("exit_code", .vnat 0)])] }
        wEnv "qsiprep" wInputs .vnone none false false [] wFS).1.files
      (log_file_name "/out/logs" "01" none "qsiprep" "lid-2")).isSome = true := by
  obtain ⟨result, lg, fsOut, heq, hname, hcontent, hne⟩ :=
    audit_log_file_one_line_per_log_call
      { validators := [("qsiprep", wValidatorPass)],
        runners := [("qsiprep", Except.ok [("exit_code", .vnat 0)])] }
      wEnv "qsiprep" wInputs .vnone none false false [] wFS wValidatorPass
      (Except.ok [("exit_code", .vnat 0)]) rfl rfl rfl
  constructor
  · rw [heq]
    simp only [RunOutput.result?, Option.map]
    rw [hname]
    rfl
  · rw [heq]
    show (fsOut.files (log_file_name "/out/logs" "01" none "qsiprep" "lid-2")).isSome
      = true
    have hsame : log_file_name "/out/logs" "01" none "qsiprep" "lid-2" =
        log_file_name (resolveLogDir wEnv wInputs none)
          (attrStr wInputs "participant") (attrOptStr wInputs "session") "qsiprep"
          wEnv.logger_uuid := rfl
    rw [hsame, hcontent]
    rfl

/-- C8: the result's `run_id` and the audit logger's run identifier are two
independently drawn UUIDs — the orchestrator's own draw ends up in the
`ProcedureResult` while every audit record and the log file name use the
logger's draw — so, the draws being distinct, the result's `run_id` appears in
no audit record and the log file is named after the logger's identifier
instead. -/
theorem result_run_id_and_logger_run_id_are_independent_uuids
    (reg : Registry) (env : RunEnv) (procedure : String) (inputs config : PyVal)
    (log_dir : Option String) (sp spo : Bool) (ov : List (String × PyVal))
    (fs0 : FileStore) (validator : Validator) (beh : Except String ExecMap)
    (hv : alookup procedure reg.validators = some validator)
    (hr : alookup procedure reg.runners = some beh)
    (hne : env.run_uuid ≠ env.logger_uuid) :
    ∃ result lg fsOut,
      run_procedure reg env procedure inputs config log_dir sp spo ov fs0 =
        (fsOut, Except.ok (result, lg)) ∧
      result.run_id = env.run_uuid ∧
      lg.run_id = env.logger_uuid ∧
      (∀ r ∈ lg.records, r.run_id = some env.logger_uuid) ∧
      (∀ r ∈ lg.records, r.run_id ≠ some result.run_id) ∧
      result.audit_log_file = some (log_file_name (resolveLogDir env inputs log_dir)
        (attrStr inputs "participant") (attrOptStr inputs "session") procedure
        env.logger_uuid) := by
  obtain ⟨result, lg, fsOut, heq, hrun, hfile, hpath, hrid, hrecs, hnon, hsync⟩ :=
    run_found_spec reg env procedure inputs config log_dir sp spo ov fs0
      validator beh hv hr
  refine ⟨result, lg, fsOut, heq, hrun, hrid, hrecs, ?_, ?_⟩
  · intro r hrm habs
    rw [hrecs r hrm, hrun] at habs
    exact hne (Option.some.inj habs).symm
  · rw [hfile, hpath]

/-- Witness for C8: with draws "rid-1" and "lid-2", the result carries "rid-1"
while the logger carries "lid-2". -/
theorem result_run_id_and_logger_run_id_are_independent_uuids_witness :
    (run_procedure
        { validators := [("qsiprep", wValidatorPass)],
          runners := [("qsiprep", Except.ok [("exit_code", .vnat 0)])] }
        wEnv "qsiprep" wInputs .vnone none false false [] wFS).result?.map
      (fun r => r.run_id) = some "rid-1" ∧
    (run_procedure
        { validators := [("qsiprep", wValidatorPass)],
          runners := [("qsiprep", Except.ok [("exit_code", .vnat 0)])] }
        wEnv "qsiprep" wInputs .vnone none false false [] wFS).logger?.map
      (fun lg => lg.run_id) = some "lid-2" := by
  obtain ⟨result, lg, fsOut, heq, hrun, hrid, hrecs, hdiff, hname⟩ :=
    result_run_id_and_logger_run_id_are_independent_uuids
      { validators := [("qsiprep", wValidatorPass)],
        runners := [("qsiprep", Except.ok [("exit_code", .vnat 0)])] }
      wEnv "qsiprep" wInputs .vnone none false false [] wFS wValidatorPass
      (Except.ok [("exit_code", .vnat 0)]) rfl rfl (by decide)
  constructor
  · rw [heq]
    simp only [RunOutput.result?, Option.map]
    rw [hrun]
    rfl
  · rw [heq]
    simp only [RunOutput.logger?, Option.map]
    rw [hrid]
    rfl

/-- C9: with `skip_pre_validation=true` the pre-Validator's rules are never
consulted — two registries whose validators differ arbitrarily in their
`pre_rules` (and hence in every rule's `skip_condition` and `check`) produce
identical run outcomes — the returned `pre_validation` is `None`, no
pre-validation audit event is logged, and the run proceeds directly from
`PROCEDURE_START` to `EXECUTION_START`. -/
theorem skip_pre_validation_never_runs_pre_rules
    (reg1 reg2 : Registry) (env : RunEnv) (procedure : String)
    (inputs config : PyVal) (log_dir : Option String) (spo : Bool)
    (ov : List (String × PyVal)) (fs0 : FileStore) (v1 v2 : Validator)
    (beh : Except String ExecMap)
    (hv1 : alookup procedure reg1.validators = some v1)
    (hv2 : alookup procedure reg2.validators = some v2)
    (hr1 : alookup procedure reg1.runners = some beh)
    (hr2 : alookup procedure reg2.runners = some beh)
    (hname : v1.procedure_name = v2.procedure_name)
    (hposteq : v1.post_rules = v2.post_rules) :
    run_procedure reg1 env procedure inputs config log_dir true spo ov fs0 =
      run_procedure reg2 env procedure inputs config log_dir true spo ov fs0 ∧
    ∃ result lg fsOut,
      run_procedure reg1 env procedure inputs config log_dir true spo ov fs0 =
        (fsOut, Except.ok (result, lg)) ∧
      result.pre_validation = none ∧
      (∀ r ∈ lg.records, r.event_type ≠ AuditEventType.PRE_VALIDATION ∧
        r.event_type ≠ AuditEventType.PRE_VALIDATION_FAILED) ∧
      (lg.records.map (fun r => r.event_type)).take 2 =
        [AuditEventType.PROCEDURE_START, AuditEventType.EXECUTION_START] := by
  have key : ∀ (A : AuditLogger) (F : FileStore),
      A.records.map (fun r => r.event_type) = [AuditEventType.PROCEDURE_START] →
      ∃ result lg fsOut,
        execPhase v1 beh procedure (attrStr inputs "participant")
          (attrOptStr inputs "session") env.run_uuid
          (buildContext procedure inputs config) none spo A F =
          (fsOut, Except.ok (result, lg)) ∧
        result.pre_validation = none ∧
        (∀ r ∈ lg.records, r.event_type ≠ AuditEventType.PRE_VALIDATION ∧
          r.event_type ≠ AuditEventType.PRE_VALIDATION_FAILED) ∧
        (lg.records.map (fun r => r.event_type)).take 2 =
          [AuditEventType.PROCEDURE_START, AuditEventType.EXECUTION_START] := by
    intro A F hA
    have hlen : A.records.length = 1 := by
      have := congrArg List.length hA
      simpa using this
    obtain ⟨result, lg, fsOut, heq, hrun, hprev, hfile, gld, gpart, gsess, gproc,
      grid, gmem, gtake, gne, gsync⟩ :=
      execPhase_shape v1 beh procedure (attrStr inputs "participant")
        (attrOptStr inputs "session") env.run_uuid
        (buildContext procedure inputs config) none spo A F
    refine ⟨result, lg, fsOut, heq, hprev, ?_, ?_⟩
    · intro r hrm
      rcases gmem r hrm with hmm | hmm
      · have : r.event_type ∈ A.records.map (fun r => r.event_type) :=
          List.mem_map_of_mem _ hmm
        rw [hA] at this
        simp only [List.mem_singleton] at this
        rw [this]
        exact ⟨by simp, by simp⟩
      · exact hmm.2
    · rw [hlen, hA] at gtake
      exact gtake
  refine ⟨?_, ?_⟩
  · simp only [run_procedure, hv1, hv2, hr1, hr2, if_true]
    exact execPhase_validator_congr v1 v2 hname hposteq beh procedure
      (attrStr inputs "participant") (attrOptStr inputs "session") env.run_uuid
      (buildContext procedure inputs config) none spo _ _
  · simp only [run_procedure, hv1, hr1, if_true, AuditLogger.init,
      AuditLogger.log, FileStore.mkdir]
    exact key _ _ (by simp)

/-- Witness for C9: a validator whose only pre-rule always fails is never
consulted when `skip_pre_validation=true` — the run is identical to the one
with a passing pre-rule and reports `pre_validation = None`. -/
theorem skip_pre_validation_never_runs_pre_rules_witness :
    run_procedure
        { validators := [("qsiprep",
            { procedure_name := "qsiprep", pre_rules := [wFailRule],
              post_rules := [wPassRule] })],
          runners := [("qsiprep", Except.ok [("exit_code", .vnat 0)])] }
        wEnv "qsiprep" wInputs .vnone none true false [] wFS =
      run_procedure
        { validators := [("qsiprep", wValidatorPass)],
          runners := [("qsiprep", Except.ok [("exit_code", .vnat 0)])] }
        wEnv "qsiprep" wInputs .vnone none true false [] wFS ∧
    (run_procedure
        { validators := [("qsiprep",
            { procedure_name := "qsiprep", pre_rules := [wFailRule],
              post_rules := [wPassRule] })],
          runners := [("qsiprep", Except.ok [("exit_code", .vnat 0)])] }
        wEnv "qsiprep" wInputs .vnone none true false [] wFS).result?.map
      (fun r => r.pre_validation) = some none := by
  have h := skip_pre_validation_never_runs_pre_rules
    { validators := [("qsiprep",
        { procedure_name := "qsiprep", pre_rules := [wFailRule],
          post_rules := [wPassRule] })],
      runners := [("qsiprep", Except.ok [("exit_code", .vnat 0)])] }
    { validators := [("qsiprep", wValidatorPass)],
      runners := [("qsiprep", Except.ok [("exit_code", .vnat 0)])] }
    wEnv "qsiprep" wInputs .vnone none false [] wFS
    { procedure_name := "qsiprep", pre_rules := [wFailRule],
      post_rules := [wPassRule] }
    wValidatorPass (Except.ok [("exit_code", .vnat 0)])
    rfl rfl rfl rfl rfl rfl
  obtain ⟨hsame, result, lg, fsOut, heq, hprev, -, -⟩ := h
  refine ⟨hsame, ?_⟩
  rw [heq]
  simp only [RunOutput.result?, Option.map]
  rw [hprev]

end VoxelOps
